import Mathlib

/-!
Verification of the core data model and view-derivation logic of the
notspore project-tracking dashboard (files `gantt_chart.py`,
`material_management.py`, `data_storage.py`).

Shallow embedding conventions:
* Python `datetime` values are modelled as minutes since an epoch placed at
  midnight (`DateTime := Nat`).  The program only ever creates and stores
  datetimes at minute resolution (all values pass through the format
  `"%Y-%m-%d %H:%M"` or `datetime.combine` of a date and a time input), so
  minute counts preserve everything the code observes: ordering, the
  `.date()` projection (modelled as division by 1440, the minutes per day),
  and `timedelta(hours=1)` (modelled as `+ 60`).  The stdlib pair
  `datetime.isoformat` / `datetime.fromisoformat` used by persistence is an
  exact inverse pair on such values, so a stored timestamp is modelled by
  the timestamp itself.
* Python dicts with a fixed key set are structures; a key that may be
  absent (`'Completed'`, `'Subtasks'`, and the optional keys read with
  `dict.get` by `load_materials`) is an `Option` field with `none` for
  "key absent".
* The status strings `"Needed" / "Ordered" / "Onsite" / "On Hand"` offered
  by the UI selectbox are the inductive `Status`.
* In-place mutation of the session-state lists is explicit state passing:
  an operation takes the list and returns the updated list.
-/

namespace Notspore

/-- Minutes since an epoch at midnight (see module docstring). -/
abbrev DateTime := Nat

/-- `datetime.date()`: the calendar day of a timestamp, as a day count. -/
def DateTime.date (t : DateTime) : Nat := t / 1440

/-- The material status pipeline offered by the UI selectbox
`["Needed", "Ordered", "Onsite", "On Hand"]`. -/
inductive Status where
  | needed
  | ordered
  | onsite
  | onHand
deriving DecidableEq, Repr

/-- A subtask dict: keys `'Task'`, `'Assigned To'`, `'Start'`, `'End'`,
and optionally `'Completed'` (cf. the default data in `gantt_chart.main`,
where one subtask has the key and another does not). -/
structure Subtask where
  name : String
  assignedTo : String
  start : DateTime
  stop : DateTime
  completed : Option Bool
deriving DecidableEq, Repr

/-- A task dict: keys `'Task'`, `'Assigned To'`, `'Start'`, `'End'`, and
optionally `'Completed'` and `'Subtasks'` (`addTask` creates neither
`'Completed'` nor a missing `'Subtasks'` is possible there, but dicts in
general may lack both, and the code reads them with `task.get('Completed',
False)` and `if 'Subtasks' in task`). `stop` models the `'End'` key
(`end` is reserved in Lean). -/
structure Task where
  name : String
  assignedTo : String
  start : DateTime
  stop : DateTime
  completed : Option Bool
  subtasks : Option (List Subtask)
deriving DecidableEq, Repr

/-- `task.get('Completed', False)`. -/
def getCompleted (t : Task) : Bool := t.completed.getD false

/-- A `Material` object (`material_management.Material.__init__`). -/
structure Material where
  name : String
  task : String
  needed_by : DateTime
  status : Status
  quantity : Nat
  unit : String
  delivery_method : String
  responsible_person : Option String
  supplier : Option String
deriving DecidableEq, Repr

/-- One JSON record of `data/materials.json`.  The three keys that
`load_materials` reads with `dict.get` may be absent from a record
(outer `none`); `responsible_person` and `supplier` may also be stored
as JSON `null` (inner `none`). -/
structure StoredRecord where
  name : String
  task : String
  needed_by : DateTime
  status : Status
  quantity : Nat
  unit : String
  delivery_method : Option String
  responsible_person : Option (Option String)
  supplier : Option (Option String)
deriving DecidableEq, Repr

/-! ### Task store operations (`gantt_chart.py`) -/

/-- The "Add Task" handler (`gantt_chart.main`, lines 557-569): builds
`new_task = {'Task', 'Assigned To', 'Start', 'End'}`, then sets
`new_task['Subtasks'] = []` and appends to `st.session_state.tasks`.
No `'Completed'` key is created and no validation is performed. -/
def addTask (tasks : List Task) (name assignedTo : String)
    (start stop : DateTime) : List Task :=
  tasks ++ [{ name := name, assignedTo := assignedTo, start := start,
              stop := stop, completed := none, subtasks := some [] }]

/-- The completion-toggle button (`display_task_with_subtasks`, lines
164-171): `completed = task.get('Completed', False)` followed by
`st.session_state.tasks[i]['Completed'] = not completed`.  The index `i`
always comes from iterating the live collection, so it is in range; an
out-of-range index is modelled as leaving the list unchanged. -/
def toggleCompletion (tasks : List Task) (i : Nat) : List Task :=
  match tasks[i]? with
  | none => tasks
  | some t => tasks.set i { t with completed := some (!(getCompleted t)) }

/-! ### Timeline flattening and the Gantt chart (`create_gantt_chart`) -/

/-- One row of the `flat_tasks` list (dict keys `'Task'`, `'Start'`,
`'End'`, `'Assigned To'`, `'Is Subtask'`). -/
structure Entry where
  name : String
  start : DateTime
  stop : DateTime
  assignedTo : String
  isSubtask : Bool
deriving DecidableEq, Repr

/-- The entry appended for a main task (`create_gantt_chart`, lines 16-22). -/
def mainEntry (t : Task) : Entry :=
  { name := t.name, start := t.start, stop := t.stop,
    assignedTo := t.assignedTo, isSubtask := false }

/-- The entry appended for a subtask (`create_gantt_chart`, lines 26-32);
the label gets the visual connector. -/
def subtaskEntry (s : Subtask) : Entry :=
  { name := "     ↳ " ++ s.name, start := s.start, stop := s.stop,
    assignedTo := s.assignedTo, isSubtask := true }

/-- The subtask entries of one task: `if 'Subtasks' in task and
task['Subtasks']:` then one entry per subtask (iterating an absent or
empty list contributes nothing either way). -/
def subEntries (t : Task) : List Entry :=
  match t.subtasks with
  | none => []
  | some subs => subs.map subtaskEntry

/-- The flattening loop of `create_gantt_chart` (lines 13-32): for each
task, its main entry followed immediately by its subtask entries. -/
def flatTasks : List Task → List Entry
  | [] => []
  | t :: rest => (mainEntry t :: subEntries t) ++ flatTasks rest

/-- `df['End'] = pd.to_datetime(df['End']) + timedelta(hours=1)` (line 37):
the display window of an entry is `[start, stop + 1 hour]`. -/
def widenEntry (e : Entry) : Entry := { e with stop := e.stop + 60 }

/-- `df.sort_values(['Start', 'Assigned To'])` comparison key. -/
def entryLE (a b : Entry) : Bool :=
  decide (a.start < b.start) ||
    (a.start == b.start && !decide (b.assignedTo < a.assignedTo))

/-- The chart rows of `create_gantt_chart`: flatten, widen each end by one
hour, sort by `(Start, Assigned To)`. -/
def ganttEntries (tasks : List Task) : List Entry :=
  ((flatTasks tasks).map widenEntry).mergeSort entryLE

/-- `create_gantt_chart(tasks)` as a state-passing function: it returns the
derived chart rows together with the task collection after the call.  The
source only reads the task dicts (the flattening loop copies values into
fresh dicts), so the returned collection is the input collection. -/
def create_gantt_chart (tasks : List Task) : List Entry × List Task :=
  (ganttEntries tasks, tasks)

/-! ### KPI dashboard (`create_kpi_dashboard`) -/

/-- `total_tasks = len(tasks)`. -/
def totalTasks (tasks : List Task) : Nat := tasks.length

/-- `completed_tasks = sum(1 for task in tasks if task.get('Completed', False))`. -/
def completedTasks (tasks : List Task) : Nat :=
  (tasks.filter getCompleted).length

/-- One `team_metrics` update step: look the assignee up in the ordered
dict (modelled as an association list in insertion order), create the
entry on first sight, then increment `total` and, when completed,
`completed`. -/
def bump (acc : List (String × Nat × Nat)) (a : String) (c : Bool) :
    List (String × Nat × Nat) :=
  match acc with
  | [] => [(a, 1, if c then 1 else 0)]
  | (b, tot, comp) :: rest =>
    if b = a then (b, tot + 1, if c then comp + 1 else comp) :: rest
    else (b, tot, comp) :: bump rest a c

/-- The `team_metrics` loop (`create_kpi_dashboard`, lines 255-262):
a Python dict keyed by `'Assigned To'`, each value holding
`{'total', 'completed'}`; dict iteration order is insertion order. -/
def teamMetrics (tasks : List Task) : List (String × Nat × Nat) :=
  tasks.foldl (fun acc t => bump acc t.assignedTo (getCompleted t)) []

/-- `task_completion = (completed_tasks / total_tasks * 100) if total_tasks > 0 else 0`. -/
def taskCompletion (tasks : List Task) : ℚ :=
  if totalTasks tasks > 0 then
    (completedTasks tasks : ℚ) / (totalTasks tasks : ℚ) * 100
  else 0

/-- `completion_rate = (metrics['completed'] / metrics['total'] * 100) if metrics['total'] > 0 else 0`. -/
def completionRate (tot comp : Nat) : ℚ :=
  if tot > 0 then (comp : ℚ) / (tot : ℚ) * 100 else 0

/-- Dict lookup in a `team_metrics`-shaped association list, `(0, 0)` when
the assignee has no entry. -/
def metricFor (acc : List (String × Nat × Nat)) (a : String) : Nat × Nat :=
  match acc with
  | [] => (0, 0)
  | (b, tot, comp) :: rest => if b = a then (tot, comp) else metricFor rest a

/-! ### Materials: status pipeline, due-today view, form, persistence -/

/-- Position of a status in the pipeline Needed, Ordered, Onsite, On Hand. -/
def statusRank : Status → Nat
  | .needed => 0
  | .ordered => 1
  | .onsite => 2
  | .onHand => 3

/-- The advance buttons of `display_materials_dashboard`: the Needed
column's "→ Ordered" (line 139), the Ordered column's "→ Onsite" (line
158), the Onsite column's "→ On Hand" (line 177); the On Hand column has
no advance button (lines 186-198), so no next stage exists there. -/
def nextStatus : Status → Option Status
  | .needed => some .ordered
  | .ordered => some .onsite
  | .onsite => some .onHand
  | .onHand => none

/-- Advancing the status of the material at index `i`:
`st.session_state.materials[row['Index']].status = <next stage>` when an
advance button exists for its column, no change otherwise (the On Hand
column offers no advance, and an invalid index addresses no material). -/
def advanceStatus (materials : List Material) (i : Nat) : List Material :=
  match materials[i]? with
  | none => materials
  | some m =>
    match nextStatus m.status with
    | none => materials
    | some s => materials.set i { m with status := s }

/-- The four status buckets of the "Materials Needed Today" panel. -/
structure DuePartition where
  needed : List Material
  ordered : List Material
  onsite : List Material
  onHand : List Material
deriving DecidableEq, Repr

/-- The "Materials Needed Today" view (`gantt_chart.main`, lines 441-481):
keep materials whose `needed_by.date()` equals the query date, then split
the kept list by status with four order-preserving comprehensions. -/
def materialsDueOn (materials : List Material) (d : Nat) : DuePartition :=
  let materials_data := materials.filter (fun m => m.needed_by.date == d)
  { needed := materials_data.filter (fun m => m.status == .needed)
    ordered := materials_data.filter (fun m => m.status == .ordered)
    onsite := materials_data.filter (fun m => m.status == .onsite)
    onHand := materials_data.filter (fun m => m.status == .onHand) }

/-- The "Add Material" handler (`display_materials_dashboard`, lines
91-110): builds the `Material` with
`responsible_person=responsible_person if responsible_person != "Unassigned" else None`
and `supplier=supplier if supplier else None` (a Python string is falsy
exactly when empty). -/
def mkMaterialFromForm (name task : String) (needed_by : DateTime)
    (status : Status) (quantity : Nat) (unit delivery_method : String)
    (responsibleChoice supplierText : String) : Material :=
  { name := name, task := task, needed_by := needed_by, status := status,
    quantity := quantity, unit := unit, delivery_method := delivery_method,
    responsible_person :=
      if responsibleChoice ≠ "Unassigned" then some responsibleChoice else none,
    supplier := if supplierText ≠ "" then some supplierText else none }

/-- One record written by `save_materials` (`data_storage.py`, lines
13-26): every one of the nine fields is written, optional `None` values
as JSON `null`. -/
def saveRecord (m : Material) : StoredRecord :=
  { name := m.name, task := m.task, needed_by := m.needed_by,
    status := m.status, quantity := m.quantity, unit := m.unit,
    delivery_method := some m.delivery_method,
    responsible_person := some m.responsible_person,
    supplier := some m.supplier }

/-- `save_materials(materials)`: the serialized collection. -/
def save_materials (materials : List Material) : List StoredRecord :=
  materials.map saveRecord

/-- One record read by `load_materials` (`data_storage.py`, lines 42-52),
with the three `dict.get` defaults passed as parameters: `dict.get`
returns the stored value whenever the key is present and the default
only when it is absent. -/
def loadRecordWith (dm : String) (rp sp : Option String)
    (r : StoredRecord) : Material :=
  { name := r.name, task := r.task, needed_by := r.needed_by,
    status := r.status, quantity := r.quantity, unit := r.unit,
    delivery_method := r.delivery_method.getD dm,
    responsible_person := r.responsible_person.getD rp,
    supplier := r.supplier.getD sp }

/-- One record read by `load_materials` with the source defaults
`m.get('delivery_method', 'Pick-up')`, `m.get('responsible_person', None)`,
`m.get('supplier', None)`. -/
def loadRecord (r : StoredRecord) : Material :=
  loadRecordWith "Pick-up" none none r

/-- `load_materials()` applied to the stored collection (the
missing-file branch returns `[]` before any record is read and plays no
part in the round trip). -/
def load_materials (data : List StoredRecord) : List Material :=
  data.map loadRecord

/-! ### Observers and concrete example data used by the theorems

Timestamps below place day 20094 at 2025-01-06 (so `28935840 = 20094 *
1440 + 480` is 2025-01-06 08:00, `28935900` is 09:00, `28935960` is
10:00, and day 20095 is 2025-01-07). -/

/-- The completion flag of the task at position `i`, as the UI reads it
(`task.get('Completed', False)`); `false` when the position is invalid. -/
def taskCompletedAt (tasks : List Task) (i : Nat) : Bool :=
  match tasks[i]? with
  | none => false
  | some t => getCompleted t

/-- First subtask of the example task (from the default data of
`gantt_chart.main`). -/
def exSub1 : Subtask :=
  { name := "Measure and mark corners", assignedTo := "Christian",
    start := 28935840, stop := 28935900, completed := some false }

/-- Second subtask of the example task: its dict has no `'Completed'`
key. -/
def exSub2 : Subtask :=
  { name := "Place temporary markers", assignedTo := "Christian",
    start := 28935900, stop := 28935960, completed := none }

/-- The example task with two subtasks. -/
def exTask : Task :=
  { name := "Mark flagstone pathway locations", assignedTo := "Christian",
    start := 28935840, stop := 28935960, completed := some false,
    subtasks := some [exSub1, exSub2] }

/-- The KPI example of the spec: Christian completed, Christian not
completed, Jordan completed. -/
def exKpiTasks : List Task :=
  [{ name := "Task A", assignedTo := "Christian", start := 28935840,
     stop := 28935900, completed := some true, subtasks := some [] },
   { name := "Task B", assignedTo := "Christian", start := 28935900,
     stop := 28935960, completed := some false, subtasks := some [] },
   { name := "Task C", assignedTo := "Jordan", start := 28935840,
     stop := 28935960, completed := some true, subtasks := some [] }]

/-- Example material needed on 2025-01-06, status Needed. -/
def exMatA : Material :=
  { name := "Flagstone", task := "Flagstone pathway installation",
    needed_by := 28935840, status := Status.needed, quantity := 1,
    unit := "pallet", delivery_method := "Pick-up",
    responsible_person := none, supplier := some "Whittlesey" }

/-- Example material needed on 2025-01-06, status Ordered. -/
def exMatB : Material :=
  { name := "Mulch", task := "Plant area around the pond",
    needed_by := 28935900, status := Status.ordered, quantity := 3,
    unit := "yards", delivery_method := "Get Delivered",
    responsible_person := some "Crew", supplier := none }

/-- Example material needed on 2025-01-07. -/
def exMatC : Material :=
  { name := "Wood", task := "Material pickup: wood for deck",
    needed_by := 20095 * 1440 + 420, status := Status.needed,
    quantity := 20, unit := "pieces", delivery_method := "Pick-up",
    responsible_person := some "Crew", supplier := none }

/-- A concrete stored record with all three optional keys present
(`supplier` present as `null`). -/
def exRecord : StoredRecord :=
  { name := "Mulch", task := "Plant area around the pond",
    needed_by := 28935840, status := Status.ordered, quantity := 3,
    unit := "yards", delivery_method := some "Get Delivered",
    responsible_person := some (some "Crew"), supplier := some none }

/-- A concrete material for the persistence witnesses. -/
def exSaved : Material :=
  { name := "Steel edging", task := "Install steel edging",
    needed_by := 28935960, status := Status.needed, quantity := 12,
    unit := "pieces", delivery_method := "Pick-up",
    responsible_person := none, supplier := none }

/-! ### C9: optional fields of a material created through the form -/

/-- C9: when the responsible-person selection is the label "Unassigned",
the created material stores `responsible_person = none`; when the supplier
text is empty, it stores `supplier = none`; any other selection and any
non-empty supplier text are stored verbatim. -/
theorem mkMaterialFromForm_optional_fields
    (name task : String) (needed_by : DateTime) (status : Status)
    (quantity : Nat) (unit delivery_method : String)
    (responsibleChoice supplierText : String) :
    ((responsibleChoice = "Unassigned" →
      (mkMaterialFromForm name task needed_by status quantity unit
        delivery_method responsibleChoice supplierText).responsible_person
        = none)
    ∧ (responsibleChoice ≠ "Unassigned" →
      (mkMaterialFromForm name task needed_by status quantity unit
        delivery_method responsibleChoice supplierText).responsible_person
        = some responsibleChoice))
    ∧ ((supplierText = "" →
      (mkMaterialFromForm name task needed_by status quantity unit
        delivery_method responsibleChoice supplierText).supplier = none)
    ∧ (supplierText ≠ "" →
      (mkMaterialFromForm name task needed_by status quantity unit
        delivery_method responsibleChoice supplierText).supplier
        = some supplierText)) := by
  refine ⟨⟨fun h => ?_, fun h => ?_⟩, ⟨fun h => ?_, fun h => ?_⟩⟩ <;>
    simp [mkMaterialFromForm, h]

/-- Witness for `mkMaterialFromForm_optional_fields` at concrete form
inputs. -/
theorem mkMaterialFromForm_optional_fields_witness :
    Material.responsible_person (mkMaterialFromForm "Flagstone"
      "Flagstone pathway installation" 28935840 Status.needed 1 "pallet"
      "Pick-up" "Unassigned" "") = none
    ∧ Material.supplier (mkMaterialFromForm "Flagstone"
      "Flagstone pathway installation" 28935840 Status.needed 1 "pallet"
      "Pick-up" "Jordan" "Whittlesey") = some "Whittlesey" :=
  ⟨(mkMaterialFromForm_optional_fields "Flagstone"
      "Flagstone pathway installation" 28935840 Status.needed 1 "pallet"
      "Pick-up" "Unassigned" "").1.1 rfl,
   (mkMaterialFromForm_optional_fields "Flagstone"
      "Flagstone pathway installation" 28935840 Status.needed 1 "pallet"
      "Pick-up" "Jordan" "Whittlesey").2.2 (by decide)⟩

/-! ### C5: the add-task action -/

/-- C5 counterexample: the claim says adding a task with an empty name or
`end < start` fails with `InvalidInput` and changes nothing; the code has
no such check — at name `""` and `end = 240 < 300 = start` the task is
appended and the collection does change. -/
theorem addTask_validation_cex :
    addTask [] "" "Christian" 300 240 ≠ []
    ∧ (addTask [] "" "Christian" 300 240).length = 1 := by
  constructor
  · intro h
    simpa [addTask] using congrArg List.length h
  · rfl

/-- C5 (amended): the add-task operation always succeeds and appends a
new task with an empty subtask list and an effectively-false completion
flag to the end of the collection, with no validation of the name or of
the timestamp order. -/
theorem addTask_appends (tasks : List Task) (name assignedTo : String)
    (start stop : DateTime) :
    ∃ t, addTask tasks name assignedTo start stop = tasks ++ [t]
      ∧ t.name = name ∧ t.assignedTo = assignedTo
      ∧ t.start = start ∧ t.stop = stop
      ∧ t.subtasks = some [] ∧ getCompleted t = false :=
  ⟨{ name := name, assignedTo := assignedTo, start := start, stop := stop,
     completed := none, subtasks := some [] },
   rfl, rfl, rfl, rfl, rfl, rfl, rfl⟩

/-! ### C4: persistence round trip -/

/-- C4: saving a collection of materials and loading it back reproduces
every field of every material, and the loader's defaults are only used on
records where the optional key is absent (a stored value, `null`
included, is always taken verbatim). -/
theorem save_load_roundtrip :
    (∀ materials : List Material,
      load_materials (save_materials materials) = materials)
    ∧ (∀ r : StoredRecord,
        (∀ v, r.delivery_method = some v → (loadRecord r).delivery_method = v)
      ∧ (∀ v, r.responsible_person = some v →
          (loadRecord r).responsible_person = v)
      ∧ (∀ v, r.supplier = some v → (loadRecord r).supplier = v)) := by
  constructor
  · intro materials
    induction materials with
    | nil => rfl
    | cons m rest ih =>
      show loadRecord (saveRecord m) :: load_materials (save_materials rest)
        = m :: rest
      rw [ih]
      rfl
  · intro r
    refine ⟨fun v h => ?_, fun v h => ?_, fun v h => ?_⟩ <;>
      simp [loadRecord, loadRecordWith, h]

/-- Witness for `save_load_roundtrip`: a concrete record with all three
optional keys present keeps the stored values through `loadRecord`. -/
theorem save_load_roundtrip_witness :
    (loadRecord exRecord).delivery_method = "Get Delivered"
    ∧ (loadRecord exRecord).supplier = none :=
  ⟨(save_load_roundtrip.2 exRecord).1 "Get Delivered" rfl,
   (save_load_roundtrip.2 exRecord).2.2 none rfl⟩

/-! ### C10: records written by save have every field -/

/-- C10: every record written by `save_materials` carries all nine keys
(the three optional ones included), so loading such a record never uses
the defaults: loading with any substitute defaults gives the same
material. -/
theorem save_materials_all_fields_present (materials : List Material)
    (r : StoredRecord) (h : r ∈ save_materials materials) :
    (r.delivery_method.isSome ∧ r.responsible_person.isSome
      ∧ r.supplier.isSome)
    ∧ ∀ dm rp sp, loadRecordWith dm rp sp r = loadRecord r := by
  simp only [save_materials, List.mem_map] at h
  obtain ⟨m, _, rfl⟩ := h
  exact ⟨⟨rfl, rfl, rfl⟩, fun dm rp sp => rfl⟩

/-- Witness for `save_materials_all_fields_present` on a concrete saved
collection. -/
theorem save_materials_all_fields_present_witness :
    (saveRecord exSaved).delivery_method.isSome
    ∧ ∀ dm rp sp, loadRecordWith dm rp sp (saveRecord exSaved)
        = loadRecord (saveRecord exSaved) :=
  ⟨(save_materials_all_fields_present [exSaved] (saveRecord exSaved)
      (by simp [save_materials])).1.1,
   (save_materials_all_fields_present [exSaved] (saveRecord exSaved)
      (by simp [save_materials])).2⟩

/-! ### C1: the status-advance pipeline -/

/-- Each advance step goes to the stage exactly one position further in
the pipeline. -/
theorem nextStatus_rank (s t : Status) (h : nextStatus s = some t) :
    statusRank t = statusRank s + 1 := by
  cases s <;> cases h <;> rfl

/-- No advance step ever yields the Needed stage. -/
theorem nextStatus_ne_needed (s t : Status) (h : nextStatus s = some t) :
    t ≠ Status.needed := by
  cases s <;> cases h <;> decide

/-- Unfolding `advanceStatus` at a position known to hold a material. -/
theorem advanceStatus_of_getElem (materials : List Material) (i : Nat)
    (m : Material) (h : materials[i]? = some m) :
    advanceStatus materials i =
      match nextStatus m.status with
      | none => materials
      | some s => materials.set i { m with status := s } := by
  unfold advanceStatus
  rw [h]

/-- C1: advancing the material at a valid index sets exactly the next
pipeline stage (one rank forward per step); on an "On Hand" material the
operation changes nothing (there is no next stage); and no advance step
ever sets a status back to "Needed" — any Needed material after the call
was already stored unchanged at the same position before it. -/
theorem advanceStatus_pipeline (materials : List Material) (i : Nat)
    (m : Material) (h : materials[i]? = some m) :
    ((advanceStatus materials i)[i]? =
        some { m with status := (nextStatus m.status).getD m.status })
    ∧ (∀ s t, nextStatus s = some t → statusRank t = statusRank s + 1)
    ∧ (m.status = Status.onHand → advanceStatus materials i = materials)
    ∧ (∀ (j : Nat) (m' : Material),
        (advanceStatus materials i)[j]? = some m' →
        m'.status = Status.needed → materials[j]? = some m') := by
  have hi : i < materials.length := by
    rcases List.getElem?_eq_some_iff.mp h with ⟨hl, _⟩
    exact hl
  refine ⟨?_, nextStatus_rank, ?_, ?_⟩
  · rw [advanceStatus_of_getElem materials i m h]
    cases hm : nextStatus m.status with
    | none => exact h
    | some s => exact List.getElem?_set_self hi
  · intro hst
    rw [advanceStatus_of_getElem materials i m h, hst]
    rfl
  · intro j m' hj hneed
    rw [advanceStatus_of_getElem materials i m h] at hj
    cases hm : nextStatus m.status with
    | none =>
      rw [hm] at hj
      exact hj
    | some s =>
      rw [hm] at hj
      replace hj : (materials.set i { m with status := s })[j]? = some m' := hj
      by_cases hij : j = i
      · subst hij
        rw [List.getElem?_set_self hi] at hj
        have hms : m' = { m with status := s } := (Option.some.inj hj).symm
        subst hms
        exact absurd hneed (nextStatus_ne_needed _ _ hm)
      · rw [List.getElem?_set_ne (Ne.symm hij)] at hj
        exact hj

/-- Witness for `advanceStatus_pipeline`: advancing the concrete Needed
material moves it to Ordered. -/
theorem advanceStatus_pipeline_witness :
    (advanceStatus [exMatA] 0)[0]? =
      some { exMatA with status := Status.ordered } :=
  (advanceStatus_pipeline [exMatA] 0 exMatA rfl).1

/-! ### C7: materials due on a date -/

/-- The Needed bucket is one fused filter over the input list. -/
theorem materialsDueOn_needed_eq (materials : List Material) (d : Nat) :
    (materialsDueOn materials d).needed =
      materials.filter
        (fun m => m.status == Status.needed && m.needed_by.date == d) := by
  simp [materialsDueOn, List.filter_filter]

/-- The Ordered bucket is one fused filter over the input list. -/
theorem materialsDueOn_ordered_eq (materials : List Material) (d : Nat) :
    (materialsDueOn materials d).ordered =
      materials.filter
        (fun m => m.status == Status.ordered && m.needed_by.date == d) := by
  simp [materialsDueOn, List.filter_filter]

/-- The Onsite bucket is one fused filter over the input list. -/
theorem materialsDueOn_onsite_eq (materials : List Material) (d : Nat) :
    (materialsDueOn materials d).onsite =
      materials.filter
        (fun m => m.status == Status.onsite && m.needed_by.date == d) := by
  simp [materialsDueOn, List.filter_filter]

/-- The On Hand bucket is one fused filter over the input list. -/
theorem materialsDueOn_onHand_eq (materials : List Material) (d : Nat) :
    (materialsDueOn materials d).onHand =
      materials.filter
        (fun m => m.status == Status.onHand && m.needed_by.date == d) := by
  simp [materialsDueOn, List.filter_filter]

/-- C7: each bucket of the due-on view holds exactly the materials whose
status is that bucket's and whose `neededBy` day equals the query date,
as an order-preserving sublist of the input; on the spec's example the
two materials due 2025-01-06 land in their status buckets and the
2025-01-07 material is excluded. -/
theorem materialsDueOn_spec :
    (∀ (materials : List Material) (d : Nat),
        (materialsDueOn materials d).needed =
          materials.filter
            (fun m => m.status == Status.needed && m.needed_by.date == d)
      ∧ (materialsDueOn materials d).ordered =
          materials.filter
            (fun m => m.status == Status.ordered && m.needed_by.date == d)
      ∧ (materialsDueOn materials d).onsite =
          materials.filter
            (fun m => m.status == Status.onsite && m.needed_by.date == d)
      ∧ (materialsDueOn materials d).onHand =
          materials.filter
            (fun m => m.status == Status.onHand && m.needed_by.date == d))
    ∧ (∀ (materials : List Material) (d : Nat),
        ((materialsDueOn materials d).needed).Sublist materials
      ∧ ((materialsDueOn materials d).ordered).Sublist materials
      ∧ ((materialsDueOn materials d).onsite).Sublist materials
      ∧ ((materialsDueOn materials d).onHand).Sublist materials)
    ∧ materialsDueOn [exMatA, exMatB, exMatC] 20094 =
        { needed := [exMatA], ordered := [exMatB],
          onsite := [], onHand := [] } := by
  refine ⟨fun materials d => ⟨materialsDueOn_needed_eq materials d,
      materialsDueOn_ordered_eq materials d,
      materialsDueOn_onsite_eq materials d,
      materialsDueOn_onHand_eq materials d⟩,
    fun materials d => ?_, by decide⟩
  rw [materialsDueOn_needed_eq, materialsDueOn_ordered_eq,
    materialsDueOn_onsite_eq, materialsDueOn_onHand_eq]
  exact ⟨List.filter_sublist materials, List.filter_sublist materials,
    List.filter_sublist materials, List.filter_sublist materials⟩

/-! ### C6: the completion toggle -/

/-- Unfolding `toggleCompletion` at a position known to hold a task. -/
theorem toggleCompletion_of_getElem (tasks : List Task) (i : Nat) (t : Task)
    (h : tasks[i]? = some t) :
    toggleCompletion tasks i =
      tasks.set i { t with completed := some (!(getCompleted t)) } := by
  unfold toggleCompletion
  rw [h]

/-- C6: at a valid position, toggling completion twice returns the task's
completion state (as the UI reads it) to its original value, and a single
toggle leaves every other position of the collection — all fields —
untouched. -/
theorem toggleCompletion_spec (tasks : List Task) (i : Nat)
    (h : i < tasks.length) :
    taskCompletedAt (toggleCompletion (toggleCompletion tasks i) i) i
      = taskCompletedAt tasks i
    ∧ ∀ (j : Nat), j ≠ i → (toggleCompletion tasks i)[j]? = tasks[j]? := by
  have ht : tasks[i]? = some tasks[i] := List.getElem?_eq_getElem h
  have h1 := toggleCompletion_of_getElem tasks i tasks[i] ht
  have hlen : i < (toggleCompletion tasks i).length := by
    rw [h1, List.length_set]
    exact h
  have ht2 : (toggleCompletion tasks i)[i]?
      = some { tasks[i] with completed := some (!(getCompleted tasks[i])) } := by
    rw [h1]
    exact List.getElem?_set_self h
  have h2 := toggleCompletion_of_getElem (toggleCompletion tasks i) i _ ht2
  constructor
  · unfold taskCompletedAt
    rw [h2, List.getElem?_set_self hlen, ht]
    simp [getCompleted]
  · intro j hj
    rw [h1]
    exact List.getElem?_set_ne (Ne.symm hj)

/-- Witness for `toggleCompletion_spec` on a concrete singleton
collection. -/
theorem toggleCompletion_spec_witness :
    taskCompletedAt (toggleCompletion (toggleCompletion [exTask] 0) 0) 0
      = taskCompletedAt [exTask] 0
    ∧ (toggleCompletion [exTask] 0)[1]? = [exTask][1]? :=
  ⟨(toggleCompletion_spec [exTask] 0 (by decide)).1,
   (toggleCompletion_spec [exTask] 0 (by decide)).2 1 (by decide)⟩

/-! ### C2: completion metrics -/

/-- `metricFor` after one `bump` step. -/
theorem metricFor_bump (acc : List (String × Nat × Nat)) (b : String)
    (c : Bool) (a : String) :
    metricFor (bump acc b c) a =
      if b = a then
        ((metricFor acc a).1 + 1,
         if c then (metricFor acc a).2 + 1 else (metricFor acc a).2)
      else metricFor acc a := by
  induction acc with
  | nil => by_cases hba : b = a <;> simp [bump, metricFor, hba]
  | cons hd rest ih =>
    obtain ⟨x, tot, comp⟩ := hd
    by_cases hxb : x = b
    · subst hxb
      by_cases hxa : x = a <;> simp [bump, metricFor, hxa]
    · by_cases hxa : x = a
      · subst hxa
        have hba : ¬b = x := fun hh => hxb hh.symm
        simp [bump, metricFor, hxb, hba]
      · simp [bump, metricFor, hxb, hxa, ih]

/-- The `team_metrics` fold, characterized against its accumulator: for
every assignee, the entry tracks how many tasks of the remaining list are
assigned to them and how many of those are completed. -/
theorem metricFor_foldl (tasks : List Task)
    (acc : List (String × Nat × Nat)) (a : String) :
    metricFor
      (tasks.foldl (fun acc t => bump acc t.assignedTo (getCompleted t)) acc)
      a =
      ((metricFor acc a).1
          + (tasks.filter (fun t => t.assignedTo == a)).length,
       (metricFor acc a).2
          + (tasks.filter (fun t => t.assignedTo == a && getCompleted t)).length) := by
  induction tasks generalizing acc with
  | nil => simp
  | cons t rest ih =>
    simp only [List.foldl_cons, List.filter_cons]
    rw [ih (bump acc t.assignedTo (getCompleted t)), metricFor_bump]
    by_cases hta : t.assignedTo = a
    · cases hc : getCompleted t <;>
        simp [hta, hc, Nat.add_comm, Nat.add_assoc, Nat.add_left_comm]
    · have hbeq : (t.assignedTo == a) = false := by
        simpa using hta
      simp [hta, hbeq]

/-- `completed_tasks` ignores subtask lists. -/
theorem completedTasks_subtask_indep (tasks : List Task)
    (f : Task → Option (List Subtask)) :
    completedTasks (tasks.map fun t => { t with subtasks := f t })
      = completedTasks tasks := by
  unfold completedTasks
  induction tasks with
  | nil => rfl
  | cons t rest ih =>
    have hc : getCompleted { t with subtasks := f t } = getCompleted t := rfl
    simp only [List.map_cons, List.filter_cons, hc]
    cases hg : getCompleted t <;> simp_all

/-- The overall completion percentage ignores subtask lists. -/
theorem taskCompletion_subtask_indep (tasks : List Task)
    (f : Task → Option (List Subtask)) :
    taskCompletion (tasks.map fun t => { t with subtasks := f t })
      = taskCompletion tasks := by
  unfold taskCompletion totalTasks
  rw [List.length_map, completedTasks_subtask_indep]

/-- The `team_metrics` fold ignores subtask lists. -/
theorem teamMetrics_go_subtask_indep (tasks : List Task)
    (f : Task → Option (List Subtask))
    (acc : List (String × Nat × Nat)) :
    (tasks.map fun t => { t with subtasks := f t }).foldl
        (fun acc t => bump acc t.assignedTo (getCompleted t)) acc
      = tasks.foldl (fun acc t => bump acc t.assignedTo (getCompleted t)) acc := by
  induction tasks generalizing acc with
  | nil => rfl
  | cons t rest ih => exact ih (bump acc t.assignedTo (getCompleted t))

/-- C2: the overall percentage is `completed / total * 100` with `0` for
an empty collection (which also yields an empty per-assignee mapping);
the per-assignee mapping partitions the top-level tasks by assignee
(counting their tasks and completed tasks exactly); subtask lists
contribute to no metric; and on the spec's example the overall value is
`200/3` (66.7%), Christian 50%, Jordan 100%. -/
theorem completionMetrics_spec :
    (taskCompletion [] = 0 ∧ teamMetrics [] = [])
    ∧ (∀ tasks : List Task,
        taskCompletion tasks =
          if totalTasks tasks = 0 then 0
          else (completedTasks tasks : ℚ) / (totalTasks tasks : ℚ) * 100)
    ∧ (∀ (tasks : List Task) (a : String),
        metricFor (teamMetrics tasks) a =
          ((tasks.filter (fun t => t.assignedTo == a)).length,
           (tasks.filter (fun t => t.assignedTo == a && getCompleted t)).length))
    ∧ (∀ (tasks : List Task) (f : Task → Option (List Subtask)),
        taskCompletion (tasks.map fun t => { t with subtasks := f t })
            = taskCompletion tasks
        ∧ teamMetrics (tasks.map fun t => { t with subtasks := f t })
            = teamMetrics tasks)
    ∧ (taskCompletion exKpiTasks = 200 / 3
       ∧ teamMetrics exKpiTasks = [("Christian", 2, 1), ("Jordan", 1, 1)]
       ∧ completionRate 2 1 = 50 ∧ completionRate 1 1 = 100) := by
  refine ⟨⟨by norm_num [taskCompletion, totalTasks], rfl⟩, ?_, ?_, ?_, ?_⟩
  · intro tasks
    unfold taskCompletion
    rcases Nat.eq_zero_or_pos (totalTasks tasks) with h0 | hpos
    · simp [h0]
    · simp [Nat.pos_iff_ne_zero.mp hpos, hpos]
  · intro tasks a
    have := metricFor_foldl tasks [] a
    simpa [teamMetrics, metricFor] using this
  · intro tasks f
    exact ⟨taskCompletion_subtask_indep tasks f,
      teamMetrics_go_subtask_indep tasks f []⟩
  · have h2 : completedTasks exKpiTasks = 2 := by decide
    have h3 : totalTasks exKpiTasks = 3 := rfl
    refine ⟨?_, by decide, by norm_num [completionRate],
      by norm_num [completionRate]⟩
    unfold taskCompletion
    rw [h2, h3]
    norm_num

/-! ### C3: timeline flattening -/

/-- The flat list has one entry per task plus one per subtask. -/
theorem flatTasks_length (tasks : List Task) :
    (flatTasks tasks).length =
      tasks.length + (tasks.map fun t => (subEntries t).length).sum := by
  induction tasks with
  | nil => rfl
  | cons t rest ih =>
    show ((mainEntry t :: subEntries t) ++ flatTasks rest).length = _
    simp only [List.length_append, List.length_cons, List.map_cons,
      List.sum_cons, ih]
    omega

/-- Every task's main entry appears in the flat list, immediately
followed by that task's subtask entries in order. -/
theorem flatTasks_indexing (tasks : List Task) :
    ∀ (i : Nat) (t : Task), tasks[i]? = some t →
      ∃ k : Nat, (flatTasks tasks)[k]? = some (mainEntry t)
        ∧ ∀ j : Nat, j < (subEntries t).length →
            (flatTasks tasks)[k + 1 + j]? = (subEntries t)[j]? := by
  induction tasks with
  | nil => intro i t h; simp at h
  | cons hd rest ih =>
    intro i t h
    cases i with
    | zero =>
      rw [List.getElem?_cons_zero] at h
      obtain rfl : hd = t := Option.some.inj h
      refine ⟨0, ?_, ?_⟩
      · show ((mainEntry hd :: subEntries hd) ++ flatTasks rest)[0]?
          = some (mainEntry hd)
        rw [List.getElem?_append_left (by simp)]
        exact List.getElem?_cons_zero
      · intro j hj
        show ((mainEntry hd :: subEntries hd) ++ flatTasks rest)[0 + 1 + j]?
          = (subEntries hd)[j]?
        rw [List.getElem?_append_left (by simp; omega)]
        rw [(by omega : 0 + 1 + j = j + 1), List.getElem?_cons_succ]
    | succ i' =>
      rw [List.getElem?_cons_succ] at h
      obtain ⟨k, hk, hsub⟩ := ih i' t h
      refine ⟨(mainEntry hd :: subEntries hd).length + k, ?_, ?_⟩
      · show ((mainEntry hd :: subEntries hd) ++ flatTasks rest)[_]? = _
        rw [List.getElem?_append_right (by omega)]
        rw [(by omega : (mainEntry hd :: subEntries hd).length + k
              - (mainEntry hd :: subEntries hd).length = k)]
        exact hk
      · intro j hj
        show ((mainEntry hd :: subEntries hd) ++ flatTasks rest)[_]? = _
        rw [List.getElem?_append_right (by omega)]
        rw [(by omega : (mainEntry hd :: subEntries hd).length + k + 1 + j
              - (mainEntry hd :: subEntries hd).length = k + 1 + j)]
        exact hsub j hj

/-- C3: flattening emits exactly one entry per task and one per subtask
(the length formula), each subtask entry immediately follows its parent
task's entry, main entries carry `isSubtask = false` and subtask entries
`isSubtask = true`; one task with two subtasks yields exactly the three
entries [task, subtask1, subtask2]. -/
theorem flatten_timeline_spec :
    (∀ tasks : List Task, (flatTasks tasks).length =
        tasks.length + (tasks.map fun t => (subEntries t).length).sum)
    ∧ (∀ (tasks : List Task) (i : Nat) (t : Task), tasks[i]? = some t →
        ∃ k : Nat, (flatTasks tasks)[k]? = some (mainEntry t)
          ∧ ∀ j : Nat, j < (subEntries t).length →
              (flatTasks tasks)[k + 1 + j]? = (subEntries t)[j]?)
    ∧ (∀ t : Task, (mainEntry t).isSubtask = false)
    ∧ (∀ s : Subtask, (subtaskEntry s).isSubtask = true)
    ∧ (flatTasks [exTask]
        = [mainEntry exTask, subtaskEntry exSub1, subtaskEntry exSub2]
       ∧ (flatTasks [exTask]).map Entry.isSubtask = [false, true, true]) :=
  ⟨flatTasks_length, flatTasks_indexing, fun _ => rfl, fun _ => rfl,
   by decide, by decide⟩

/-- Witness for `flatten_timeline_spec` on the concrete
one-task-two-subtasks collection. -/
theorem flatten_timeline_spec_witness :
    ∃ k : Nat, (flatTasks [exTask])[k]? = some (mainEntry exTask)
      ∧ ∀ j : Nat, j < (subEntries exTask).length →
          (flatTasks [exTask])[k + 1 + j]? = (subEntries exTask)[j]? :=
  flatten_timeline_spec.2.1 [exTask] 0 exTask rfl

/-! ### C8: the display window and the frame condition -/

/-- C8: producing the chart leaves the stored task collection unchanged
(every task's and subtask's stored start and end are as before the call),
and the chart rows are exactly the flattened entries — which carry the
stored start and end verbatim — with each displayed end widened by
exactly one hour (60 minutes) and every other field untouched. -/
theorem gantt_display_window (tasks : List Task) :
    (create_gantt_chart tasks).2 = tasks
    ∧ ((create_gantt_chart tasks).1).Perm ((flatTasks tasks).map widenEntry)
    ∧ (∀ e : Entry, (widenEntry e).stop = e.stop + 60
        ∧ (widenEntry e).start = e.start ∧ (widenEntry e).name = e.name
        ∧ (widenEntry e).assignedTo = e.assignedTo
        ∧ (widenEntry e).isSubtask = e.isSubtask)
    ∧ (∀ t : Task, (mainEntry t).start = t.start ∧ (mainEntry t).stop = t.stop)
    ∧ (∀ s : Subtask, (subtaskEntry s).start = s.start
        ∧ (subtaskEntry s).stop = s.stop) :=
  ⟨rfl, List.mergeSort_perm ((flatTasks tasks).map widenEntry) entryLE,
   fun _ => ⟨rfl, rfl, rfl, rfl, rfl⟩, fun _ => ⟨rfl, rfl⟩,
   fun _ => ⟨rfl, rfl⟩⟩

end Notspore
